import Mathlib

set_option maxRecDepth 40000

/-!
Verification of the ZeroTier bridge setup script (`zerotier_bridge_setup_v1_5.py`).

The script is a linear provisioning pipeline: it installs packages with a
tiered download fallback, appends DHCP-exclusion directives to
`/etc/dhcpcd.conf`, overwrites `/etc/network/interfaces`, optionally joins a
ZeroTier network and schedules a boot-time cron job.  This file embeds the
content-transforming and decision-making parts of that script as executable
Lean definitions (file contents are `String`s, external commands are
parameters supplying their observable results) and proves or refutes the
specified properties.
-/

namespace ZTBridge

/-! ### String-scanning primitives

Python's `needle in haystack` is substring containment; we model it (and an
occurrence count used to state the idempotence properties) over `List Char`.
-/

/-- Number of positions of the haystack at which `needle` occurs. -/
def countOccs (needle : List Char) : List Char → Nat
  | [] => 0
  | c :: rest =>
    (if needle.isPrefixOf (c :: rest) then 1 else 0) + countOccs needle rest

/-- Substring test, modelling Python's `needle in haystack`. -/
def containsSub (needle : List Char) : List Char → Bool
  | [] => needle.isEmpty
  | c :: rest => needle.isPrefixOf (c :: rest) || containsSub needle rest

/-- `String` wrapper for `containsSub`: Python `needle in hay`. -/
def strContains (hay needle : String) : Bool :=
  containsSub needle.data hay.data

/-- `String` wrapper for `countOccs`. -/
def strCount (hay needle : String) : Nat :=
  countOccs needle.data hay.data

/-- The whitespace characters stripped by Python's `str.strip()`. -/
def isSpace (c : Char) : Bool :=
  c = ' ' || c = '\t' || c = '\n' || c = '\r' || c = '\x0B' || c = '\x0C'

/-- Python `s.strip()`. -/
def pythonStrip (s : String) : String :=
  ⟨((s.data.dropWhile isSpace).reverse.dropWhile isSpace).reverse⟩

/-- Python `s.lower()` (the script only feeds it ASCII). -/
def pythonLower (s : String) : String :=
  ⟨s.data.map Char.toLower⟩

/-- Python `input(...).strip().lower() in ['yes', 'y']`, the affirmative test
used by every yes/no prompt in the script. -/
def yesResponse (s : String) : Bool :=
  pythonLower (pythonStrip s) = "yes" || pythonLower (pythonStrip s) = "y"

/-! ### The command executor and backup routine (`run_command`, `backup_file`)

`run_command` invokes `subprocess.run(..., check=True)`, catches the
`CalledProcessError` that a non-zero exit raises, and returns the error
object — so the caller always receives a result value carrying the exit
status, never an exception.  We model the external world as a function from
command line to observed result.
-/

/-- Exit status and captured output of one external command. -/
structure CommandResult where
  returncode : Int
  stdout : String
  stderr : String
  deriving DecidableEq

/-- `run_command`: returns the observed result of the command; a non-zero
exit is caught inside and returned, not raised. -/
def run_command (exec : String → CommandResult) (command : String) : CommandResult :=
  exec command

/-- The timestamp-suffixed backup destination used by `backup_file`. -/
def backup_path (filepath timestamp : String) : String :=
  filepath ++ ".backup." ++ timestamp

/-- `backup_file`: when the file exists, runs `cp` via `run_command` and —
because `run_command` never raises — unconditionally reports the backup
path; when the file is absent it returns `None`. -/
def backup_file (exec : String → CommandResult) (fileExists : Bool)
    (filepath timestamp : String) : Option String :=
  if fileExists then
    let _ := run_command exec ("cp " ++ filepath ++ " " ++ backup_path filepath timestamp)
    some (backup_path filepath timestamp)
  else none

/-! ### The dhcpcd exclusion writer (`configure_dhcpcd`)

The script checks `'denyinterfaces eth0' in content and
'denyinterfaces zt' in content`; if the check fails it appends a fixed
four-line block.  Note that the interface names are hard-coded — the
function takes no configuration argument.
-/

/-- First directive appended by `configure_dhcpcd`. -/
def deny_eth0 : String := "denyinterfaces eth0"

/-- Substring the script checks for as the second directive. -/
def deny_zt_check : String := "denyinterfaces zt"

/-- Second directive appended by `configure_dhcpcd`. -/
def deny_zt_star : String := "denyinterfaces zt*"

/-- The block `configure_dhcpcd` appends when the check fails. -/
def ztBlock : String :=
  "\n# ZeroTier Bridge Configuration\n# Prevent dhcpcd from managing bridge interfaces\ndenyinterfaces eth0\ndenyinterfaces zt*\n"

/-- The `if 'denyinterfaces eth0' in content and 'denyinterfaces zt' in content`
test of `configure_dhcpcd`. -/
def dhcpcdConfigured (content : String) : Bool :=
  strContains content deny_eth0 && strContains content deny_zt_check

/-- Content transformation performed by `configure_dhcpcd` once the file
exists: leave the content alone when the check passes, otherwise append
the fixed block. -/
def dhcpcdTransform (content : String) : String :=
  if dhcpcdConfigured content then content else content ++ ztBlock

/-- Header written when `configure_dhcpcd` has to create `/etc/dhcpcd.conf`. -/
def dhcpcdHeader : String :=
  "# dhcpcd configuration for ZeroTier bridge\n# Created by zerotier_bridge_setup.py\n\n"

/-- `backup_file` followed by the dhcpcd append step, as `configure_dhcpcd`
performs them: the backup's outcome is not inspected before writing. -/
def backup_then_append (exec : String → CommandResult)
    (filepath timestamp content : String) : Option String × String :=
  (backup_file exec true filepath timestamp, dhcpcdTransform content)

/-- Observable outcome of one `configure_dhcpcd` run. -/
structure DhcpcdRun where
  /-- `sys.exit(1)` was reached. -/
  exit1 : Bool
  /-- The NetworkManager disable prompt was shown. -/
  promptedNM : Bool
  /-- Final content of `/etc/dhcpcd.conf` (`none`: still absent). -/
  finalContent : Option String
  /-- A write (creation or append) to the file occurred. -/
  wrote : Bool
  deriving DecidableEq

/-- `configure_dhcpcd`, with `handle_network_manager` inlined on the only
path that calls it.  `fileExists`/`content` describe `/etc/dhcpcd.conf`
beforehand, `nmActive` is the NetworkManager probe result, `resp` the
operator's answer to the disable prompt (read only if prompted). -/
def configure_dhcpcd_run (fileExists : Bool) (content : String) (nmActive : Bool)
    (resp : String) : DhcpcdRun :=
  if fileExists then
    { exit1 := false, promptedNM := false,
      finalContent := some (dhcpcdTransform content),
      wrote := !(dhcpcdConfigured content) }
  else if nmActive then
    if yesResponse resp then
      { exit1 := false, promptedNM := true,
        finalContent := some (dhcpcdTransform dhcpcdHeader), wrote := true }
    else
      { exit1 := true, promptedNM := true, finalContent := none, wrote := false }
  else
    { exit1 := false, promptedNM := false,
      finalContent := some (dhcpcdTransform dhcpcdHeader), wrote := true }

/-! ### The interfaces writer (`configure_network_interfaces`) -/

/-- The configuration collected by `get_user_input`. -/
structure RunConfig where
  physical_interface : String
  bridge_ip : String
  netmask : String
  gateway : String
  dns : String
  zerotier_network : Option String
  deriving DecidableEq

/-- The body `configure_network_interfaces` generates (the Python f-string,
verbatim). -/
def interfaces_config (cfg : RunConfig) : String :=
  "# /etc/network/interfaces\n# Configured by zerotier_bridge_setup.py\n\n# Loopback interface\nauto lo\niface lo inet loopback\n\n# Physical interface - no IP configuration (manual mode)\nauto "
  ++ cfg.physical_interface
  ++ "\niface " ++ cfg.physical_interface ++ " inet manual\n\n# Bridge interface\nauto br0\niface br0 inet static\n    address "
  ++ cfg.bridge_ip
  ++ "\n    netmask " ++ cfg.netmask
  ++ "\n    gateway " ++ cfg.gateway
  ++ "\n    dns-nameservers " ++ cfg.dns
  ++ "\n    bridge_ports " ++ cfg.physical_interface
  ++ "\n    bridge_stp off\n    bridge_fd 0\n    bridge_maxwait 0\n"

/-- The file write of `configure_network_interfaces`: `open(..., 'w')`
followed by one `write` of the whole body — the previous content is
discarded entirely. -/
def write_network_interfaces (cfg : RunConfig) (_old : String) : String :=
  interfaces_config cfg

/-- The concrete configuration named by the spec's test property. -/
def exampleConfig : RunConfig :=
  { physical_interface := "eth0", bridge_ip := "192.168.1.2",
    netmask := "255.255.255.0", gateway := "192.168.1.1",
    dns := "8.8.8.8 8.8.4.4", zerotier_network := none }

/-! ### ZeroTier network id intake (`get_user_input`) and the optional stages -/

/-- `config['zerotier_network'] = zt_network if len(zt_network) == 16 else None`,
applied to the stripped prompt answer. -/
def get_zerotier_network (raw : String) : Option String :=
  let zt := pythonStrip raw
  if zt.length = 16 then some zt else none

/-- A 16-character lower-case hexadecimal string, the shape the script's own
`configure_zerotier_managed` expects (regex `[a-f0-9]{16}`). -/
def isHex16 (s : String) : Bool :=
  s.length = 16 && s.data.all (fun c => c.isDigit || ('a' ≤ c && c ≤ 'f'))

/-- Which optional stages of `main` run. -/
structure OptStages where
  /-- `join_zerotier_network` was invoked. -/
  joinRun : Bool
  /-- `configure_zerotier_managed` was invoked. -/
  managedRun : Bool
  /-- `create_cron_job` was invoked. -/
  cronRun : Bool
  deriving DecidableEq

/-- The tail of `main`: join only when `config['zerotier_network']` is truthy,
and the managed-routes and cron stages only when the join discovered an
interface. -/
def mainOptStages (ztNet : Option String) (joinFinds : Option String) : OptStages :=
  match ztNet with
  | none => { joinRun := false, managedRun := false, cronRun := false }
  | some s =>
    if s = "" then { joinRun := false, managedRun := false, cronRun := false }
    else
      match joinFinds with
      | some _ => { joinRun := true, managedRun := true, cronRun := true }
      | none => { joinRun := true, managedRun := false, cronRun := false }

/-! ### The cron scheduler (`create_cron_job`) -/

/-- The `@reboot` line `create_cron_job` manages for a given ZeroTier
interface name. -/
def cron_command (zt : String) : String :=
  "@reboot sleep 45 && /usr/sbin/brctl addif br0 " ++ zt
  ++ " >> /tmp/bridge-setup.log 2>&1"

/-- `create_cron_job`'s transformation of the crontab text: keep it unchanged
when the command already occurs as a substring, otherwise append
`"\n" + command + "\n"`. -/
def addCron (zt current : String) : String :=
  if strContains current (cron_command zt) then current
  else current ++ "\n" ++ cron_command zt ++ "\n"

/-- A crontab that already holds the command twice (e.g. added manually). -/
def badCron : String :=
  "\n" ++ cron_command "zt0" ++ "\n" ++ cron_command "zt0" ++ "\n"

/-! ### The package provisioner (`install_packages` and its download tiers) -/

/-- Observable behaviour of the outside world during provisioning, one field
per kind of external command the provisioner issues. -/
structure PkgEnv where
  /-- `wget -O out url`: `some size` when the command succeeds and leaves a
  file of `size` bytes, `none` otherwise. -/
  wget : String → Option Nat
  /-- `apt-cache show pkg | grep Filename:`: the parsed filename, if any. -/
  aptCache : String → Option String
  /-- `dpkg -l | grep '^ii.*pkg'` reported the package installed. -/
  installed : String → Bool
  /-- `apt-get install -y pkg` succeeded. -/
  aptGetOk : String → Bool
  /-- First `dpkg -i file` succeeded. -/
  dpkg1Ok : String → Bool
  /-- Second `dpkg -i file` (after `apt-get install -f -y`) succeeded. -/
  dpkg2Ok : String → Bool
  /-- `/usr/sbin/zerotier-cli` already exists. -/
  ztPresent : Bool
  /-- The ZeroTier vendor install script succeeded. -/
  ztInstallOk : Bool
  /-- Operator's answer to the `Continue anyway?` prompt. -/
  criticalResp : String

/-- The `known_packages` table of `download_deb_package_improved`. -/
def known_packages (pkg arch : String) : Option String :=
  if pkg = "bridge-utils" then
    if arch = "armhf" then
      some "http://ftp.debian.org/debian/pool/main/b/bridge-utils/bridge-utils_1.7.1-1_armhf.deb"
    else if arch = "arm64" then
      some "http://ftp.debian.org/debian/pool/main/b/bridge-utils/bridge-utils_1.7.1-1_arm64.deb"
    else none
  else if pkg = "ifupdown" then
    if arch = "armhf" then
      some "http://ftp.debian.org/debian/pool/main/i/ifupdown/ifupdown_0.8.41_armhf.deb"
    else if arch = "arm64" then
      some "http://ftp.debian.org/debian/pool/main/i/ifupdown/ifupdown_0.8.41_arm64.deb"
    else none
  else none

/-- The mirror base URLs tried in order by the apt-cache tier. -/
def mirrors : List String :=
  ["http://ftp.debian.org/debian/", "http://deb.debian.org/debian/",
   "http://ftp.ch.debian.org/debian/", "http://ftp.de.debian.org/debian/"]

/-- The `snapshot_urls` table of `download_deb_package_improved`. -/
def snapshot_packages (pkg arch : String) : Option String :=
  if pkg = "ifupdown" then
    if arch = "armhf" then
      some "http://snapshot.debian.org/archive/debian/20231201T084046Z/pool/main/i/ifupdown/ifupdown_0.8.41_armhf.deb"
    else if arch = "arm64" then
      some "http://snapshot.debian.org/archive/debian/20231201T084046Z/pool/main/i/ifupdown/ifupdown_0.8.41_arm64.deb"
    else none
  else none

/-- Candidate URLs of the direct known-URL tier (zero or one). -/
def knownUrls (pkg arch : String) : List String :=
  (known_packages pkg arch).toList

/-- Candidate URLs of the mirror-search tier: each mirror base joined with
the filename reported by apt-cache. -/
def mirrorUrls (env : PkgEnv) (pkg : String) : List String :=
  match env.aptCache pkg with
  | some filename => mirrors.map (fun m => m ++ filename)
  | none => []

/-- Candidate URLs of the archive-snapshot tier (zero or one). -/
def snapshotUrls (pkg arch : String) : List String :=
  (snapshot_packages pkg arch).toList

/-- All download candidates of `download_deb_package_improved`, in the order
the code tries them: known URL, then mirrors, then snapshot. -/
def candidates (env : PkgEnv) (pkg arch : String) : List String :=
  knownUrls pkg arch ++ mirrorUrls env pkg ++ snapshotUrls pkg arch

/-- `download_package_direct`: succeed only when wget exits 0, the file
exists, and its size exceeds 1000 bytes. -/
def download_package_direct (env : PkgEnv) (url : String) : Bool :=
  match env.wget url with
  | some size => decide (size > 1000)
  | none => false

/-- The first candidate URL whose direct download succeeds. -/
def firstSuccess (env : PkgEnv) : List String → Option String
  | [] => none
  | u :: rest =>
    if download_package_direct env u then some u else firstSuccess env rest

/-- The URLs actually tried, in order: every candidate up to and including
the first success (all candidates if none succeeds). -/
def attempted (env : PkgEnv) : List String → List String
  | [] => []
  | u :: rest =>
    u :: (if download_package_direct env u then [] else attempted env rest)

/-- `os.path.basename` for the URL strings involved. -/
def basename (s : String) : String :=
  (s.splitOn "/").getLastD s

/-- The scratch directory of `download_deb_package_improved`. -/
def temp_dir : String := "/tmp/zerotier_packages"

/-- `download_deb_package_improved`: the saved path of the first successful
candidate, or `none` when every tier fails. -/
def download_deb_package_improved (env : PkgEnv) (pkg arch : String) : Option String :=
  (firstSuccess env (candidates env pkg arch)).map
    (fun url => temp_dir ++ "/" ++ basename url)

/-- `install_deb_package`: `dpkg -i`, and on failure a dependency fix
followed by one retry. -/
def install_deb_ok (env : PkgEnv) (debFile : String) : Bool :=
  env.dpkg1Ok debFile || env.dpkg2Ok debFile

/-- How one package's installation concluded. -/
inductive PkgOutcome
  /-- Skipped: `dpkg -l` says it is already installed. -/
  | alreadyInstalled
  /-- `apt-get install` succeeded. -/
  | aptOk
  /-- Installed from a direct download. -/
  | directOk
  /-- Every tier failed. -/
  | failed
  deriving DecidableEq

/-- One iteration of the package loop of `install_packages`, paired with the
trace of download URLs it tried. -/
def installPackageStep (env : PkgEnv) (arch pkg : String) : PkgOutcome × List String :=
  if env.installed pkg then (PkgOutcome.alreadyInstalled, [])
  else if env.aptGetOk pkg then (PkgOutcome.aptOk, [])
  else
    match download_deb_package_improved env pkg arch with
    | some debFile =>
      if install_deb_ok env debFile then
        (PkgOutcome.directOk, attempted env (candidates env pkg arch))
      else
        (PkgOutcome.failed, attempted env (candidates env pkg arch))
    | none => (PkgOutcome.failed, attempted env (candidates env pkg arch))

/-- The fixed package list of `install_packages`. -/
def packagesList : List String := ["bridge-utils", "ifupdown"]

/-- Whether a package ends up in `installation_failed`. -/
def pkgFailed (env : PkgEnv) (arch pkg : String) : Bool :=
  match (installPackageStep env arch pkg).1 with
  | PkgOutcome.failed => true
  | _ => false

/-- The `installation_failed` list accumulated by the package loop. -/
def failedList (env : PkgEnv) (arch : String) : List String :=
  packagesList.filter (pkgFailed env arch)

/-- Observable outcome of `install_packages`. -/
structure InstallRun where
  /-- `sys.exit(1)` was reached. -/
  exit1 : Bool
  /-- The `Continue anyway?` prompt for the critical package was shown. -/
  promptedCritical : Bool
  /-- The `installation_failed` summary. -/
  failed : List String
  deriving DecidableEq

/-- `install_packages` after the per-package loop: install ZeroTier if absent
(fatal on failure), then prompt if the critical package `ifupdown` failed
(refusal fatal). -/
def install_packages (env : PkgEnv) (arch : String) : InstallRun :=
  let failed := failedList env arch
  if env.ztPresent || env.ztInstallOk then
    if failed.contains "ifupdown" then
      if yesResponse env.criticalResp then
        { exit1 := false, promptedCritical := true, failed := failed }
      else
        { exit1 := true, promptedCritical := true, failed := failed }
    else
      { exit1 := false, promptedCritical := false, failed := failed }
  else
    { exit1 := true, promptedCritical := false, failed := failed }

/-- Download environment for the witnesses: the known ifupdown URL yields a
500-byte file (a redirect page), the second tier's first mirror yields a
real package. -/
def envEx : PkgEnv where
  wget := fun u =>
    if u = "http://ftp.debian.org/debian/pool/main/i/ifupdown/ifupdown_0.8.41_armhf.deb" then
      some 500
    else if u = "http://ftp.debian.org/debian/pool/main/i/ifupdown/ifupdown_0.8.41a_armhf.deb" then
      some 4242
    else none
  aptCache := fun _ => some "pool/main/i/ifupdown/ifupdown_0.8.41a_armhf.deb"
  installed := fun _ => false
  aptGetOk := fun _ => false
  dpkg1Ok := fun _ => true
  dpkg2Ok := fun _ => false
  ztPresent := true
  ztInstallOk := false
  criticalResp := "yes"

/-- Provisioning environment for the witnesses: every tier fails for
bridge-utils, ifupdown installs via apt-get, ZeroTier already present. -/
def envEx2 : PkgEnv where
  wget := fun _ => none
  aptCache := fun _ => none
  installed := fun _ => false
  aptGetOk := fun p => p = "ifupdown"
  dpkg1Ok := fun _ => false
  dpkg2Ok := fun _ => false
  ztPresent := true
  ztInstallOk := false
  criticalResp := "no"

/-- Command executor whose `cp` always fails, for the C10 witness. -/
def failExec : String → CommandResult :=
  fun _ => { returncode := 1, stdout := "", stderr := "cp: cannot create regular file" }

/-! ## Helper lemmas on the string scanners -/

theorem isPrefixOf_self_append (a b : List Char) : a.isPrefixOf (a ++ b) = true := by
  induction a with
  | nil => simp
  | cons x xs ih => simp [ih]

theorem length_le_of_isPrefixOf {n h : List Char} (hp : n.isPrefixOf h = true) :
    n.length ≤ h.length := by
  induction n generalizing h with
  | nil => simp
  | cons x xs ih =>
    cases h with
    | nil => simp [List.isPrefixOf] at hp
    | cons y ys =>
      rw [List.isPrefixOf_cons₂, Bool.and_eq_true] at hp
      simpa using ih hp.2

theorem eq_of_isPrefixOf_of_length {n h : List Char} (hp : n.isPrefixOf h = true)
    (hl : n.length = h.length) : n = h := by
  induction n generalizing h with
  | nil =>
    cases h with
    | nil => rfl
    | cons y ys => simp at hl
  | cons x xs ih =>
    cases h with
    | nil => simp [List.isPrefixOf] at hp
    | cons y ys =>
      rw [List.isPrefixOf_cons₂, Bool.and_eq_true] at hp
      have hxy : x = y := by simpa using hp.1
      have : xs = ys := ih hp.2 (by simpa using hl)
      simp [hxy, this]

theorem isPrefixOf_eq_false_of_length_lt {n h : List Char} (hl : h.length < n.length) :
    n.isPrefixOf h = false := by
  cases hp : n.isPrefixOf h with
  | false => rfl
  | true => exact absurd (length_le_of_isPrefixOf hp) (by omega)

/-- When the extension `b` starts with a character absent from `needle`,
prefix-testing against `l ++ b` is the same as against `l`. -/
theorem isPrefixOf_append_eq (n : List Char) (c : Char) (b' : List Char)
    (hc : c ∉ n) : ∀ l : List Char, n.isPrefixOf (l ++ (c :: b')) = n.isPrefixOf l := by
  induction n with
  | nil => intro l; simp
  | cons x xs ih =>
    intro l
    cases l with
    | nil =>
      have hxc : (x == c) = false := by
        apply beq_eq_false_iff_ne.mpr
        intro hxceq
        subst hxceq
        exact hc (List.mem_cons_self x xs)
      simp [List.isPrefixOf_cons₂, hxc, List.isPrefixOf]
    | cons y ys =>
      have hcxs : c ∉ xs := fun hmem => hc (List.mem_cons_of_mem _ hmem)
      simp only [List.cons_append, List.isPrefixOf_cons₂]
      rw [ih hcxs ys]

/-- Counting occurrences distributes over append when no occurrence can
straddle the boundary: the appended part starts with a character that the
needle does not contain. -/
theorem countOccs_append (n : List Char) (c : Char) (b' : List Char) (hc : c ∉ n)
    (a : List Char) :
    countOccs n (a ++ (c :: b')) = countOccs n a + countOccs n (c :: b') := by
  induction a with
  | nil => simp [countOccs]
  | cons x xs ih =>
    have hpre := isPrefixOf_append_eq n c b' hc (x :: xs)
    show (if n.isPrefixOf ((x :: xs) ++ (c :: b')) = true then 1 else 0)
        + countOccs n (xs ++ (c :: b'))
      = (if n.isPrefixOf (x :: xs) = true then 1 else 0) + countOccs n xs
        + countOccs n (c :: b')
    rw [hpre, ih]
    omega

theorem containsSub_eq_false_of_countOccs_eq_zero {n h : List Char} (hn : n ≠ [])
    (h0 : countOccs n h = 0) : containsSub n h = false := by
  induction h with
  | nil => simpa [containsSub, List.isEmpty_iff] using hn
  | cons x xs ih =>
    simp only [countOccs] at h0
    have hp : n.isPrefixOf (x :: xs) = false := by
      cases hpp : n.isPrefixOf (x :: xs) with
      | false => rfl
      | true => rw [hpp] at h0; simp at h0
    rw [hp] at h0
    simp only [if_neg (by simp : ¬(false = true))] at h0
    have hrest : countOccs n xs = 0 := by omega
    simp [containsSub, hp, ih hrest]

theorem containsSub_append_right {n b : List Char} (hb : containsSub n b = true)
    (a : List Char) : containsSub n (a ++ b) = true := by
  induction a with
  | nil => simpa using hb
  | cons x xs ih =>
    simp only [List.cons_append, containsSub, Bool.or_eq_true]
    exact Or.inr ih

theorem containsSub_self_append (n b : List Char) : containsSub n (n ++ b) = true := by
  cases n with
  | nil =>
    cases b with
    | nil => rfl
    | cons y ys => simp [containsSub]
  | cons x xs =>
    simp only [List.cons_append, containsSub, Bool.or_eq_true]
    exact Or.inl (isPrefixOf_self_append (x :: xs) b)

theorem countOccs_eq_zero_of_length_lt {n h : List Char} (hl : h.length < n.length) :
    countOccs n h = 0 := by
  induction h with
  | nil => rfl
  | cons x xs ih =>
    simp only [countOccs]
    rw [isPrefixOf_eq_false_of_length_lt hl]
    have : xs.length < n.length := by simp at hl; omega
    simp [ih this]

theorem countOccs_eq_zero_of_ne_of_length_eq {n h : List Char}
    (hl : h.length = n.length) (hne : n ≠ h) : countOccs n h = 0 := by
  cases h with
  | nil => rfl
  | cons x xs =>
    simp only [countOccs]
    have hp : n.isPrefixOf (x :: xs) = false := by
      cases hpp : n.isPrefixOf (x :: xs) with
      | false => rfl
      | true => exact absurd (eq_of_isPrefixOf_of_length hpp hl.symm) hne
    have : xs.length < n.length := by simp at hl; omega
    simp [hp, countOccs_eq_zero_of_length_lt this]

/-- One occurrence of a newline-free, non-newline-headed `cmd` in
`'\n' :: cmd ++ ['\n']` — exactly the block that the script appends. -/
theorem countOccs_newline_self (cmd : List Char) (c0 : Char) (rest : List Char)
    (hcmd : cmd = c0 :: rest) (hc0 : c0 ≠ '\n') (hnl : '\n' ∉ cmd) :
    countOccs cmd ('\n' :: (cmd ++ ['\n'])) = 1 := by
  subst hcmd
  have h1 : (c0 :: rest).isPrefixOf ('\n' :: ((c0 :: rest) ++ ['\n'])) = false := by
    rw [List.isPrefixOf_cons₂]
    have hne : (c0 == '\n') = false := beq_eq_false_iff_ne.mpr hc0
    simp [hne]
  have h2 : (c0 :: rest).isPrefixOf ((c0 :: rest) ++ ['\n']) = true :=
    isPrefixOf_self_append _ _
  have h3 : countOccs (c0 :: rest) (rest ++ ['\n']) = 0 := by
    apply countOccs_eq_zero_of_ne_of_length_eq
    · simp
    · intro heq
      apply hnl
      rw [heq]
      simp
  show (if (c0 :: rest).isPrefixOf ('\n' :: ((c0 :: rest) ++ ['\n'])) = true then 1 else 0)
      + ((if (c0 :: rest).isPrefixOf ((c0 :: rest) ++ ['\n']) = true then 1 else 0)
        + countOccs (c0 :: rest) (rest ++ ['\n'])) = 1
  rw [h1, h2, h3]
  simp

/-- Appending the dhcpcd block adds exactly its own occurrences of any
newline-free needle: the block starts with a newline, so no occurrence
straddles the boundary. -/
theorem strCount_append_ztBlock (content needle : String) (hnl : '\n' ∉ needle.data) :
    strCount (content ++ ztBlock) needle
      = strCount content needle + strCount ztBlock needle := by
  unfold strCount
  rw [String.data_append]
  have hz : ztBlock.data = '\n' :: ztBlock.data.tail := by decide
  rw [hz, countOccs_append needle.data '\n' ztBlock.data.tail hnl content.data]

/-! ## Claim theorems -/

/-- Claim C1, counterexample: on a file that already holds the eth0 directive
but not the zt directive, the writer appends the whole block again, so after
one run the eth0 directive occurs twice — not "exactly once" as claimed. -/
theorem C1_counterexample :
    dhcpcdConfigured "denyinterfaces eth0\n" = false
  ∧ strCount (dhcpcdTransform "denyinterfaces eth0\n") deny_eth0 = 2 :=
  ⟨by decide, by decide⟩

/-- Claim C1 (amended): if both directives are already present the writer
performs no write; a second run in succession always changes nothing; and
starting from content containing neither directive, one run leaves each
directive occurring exactly once. -/
theorem C1_idempotent_append (content : String) :
    (dhcpcdConfigured content = true → dhcpcdTransform content = content)
  ∧ dhcpcdTransform (dhcpcdTransform content) = dhcpcdTransform content
  ∧ (strCount content deny_eth0 = 0 → strCount content deny_zt_star = 0 →
      strCount (dhcpcdTransform content) deny_eth0 = 1
      ∧ strCount (dhcpcdTransform content) deny_zt_star = 1) := by
  have happend : dhcpcdConfigured (content ++ ztBlock) = true := by
    have he : containsSub deny_eth0.data (content.data ++ ztBlock.data) = true :=
      containsSub_append_right (by decide) content.data
    have hz : containsSub deny_zt_check.data (content.data ++ ztBlock.data) = true :=
      containsSub_append_right (by decide) content.data
    simp [dhcpcdConfigured, strContains, String.data_append, he, hz]
  refine ⟨?_, ?_, ?_⟩
  · intro h
    simp [dhcpcdTransform, h]
  · by_cases h : dhcpcdConfigured content = true
    · simp [dhcpcdTransform, h]
    · have hf : dhcpcdConfigured content = false := by simpa using h
      simp [dhcpcdTransform, hf, happend]
  · intro h1 h2
    have hce : containsSub deny_eth0.data content.data = false :=
      containsSub_eq_false_of_countOccs_eq_zero (by decide) h1
    have hconf : dhcpcdConfigured content = false := by
      simp [dhcpcdConfigured, strContains, hce]
    have htrans : dhcpcdTransform content = content ++ ztBlock := by
      simp [dhcpcdTransform, hconf]
    rw [htrans, strCount_append_ztBlock content deny_eth0 (by decide),
      strCount_append_ztBlock content deny_zt_star (by decide), h1, h2]
    exact ⟨by decide, by decide⟩

/-- Witness for C1: on the empty file, one run yields each directive exactly
once. -/
theorem C1_witness :
    strCount (dhcpcdTransform "") deny_eth0 = 1
  ∧ strCount (dhcpcdTransform "") deny_zt_star = 1 :=
  (C1_idempotent_append "").2.2 (by decide) (by decide)

/-- Claim C2: the directives `configure_dhcpcd` checks for and appends are
hard-coded to `eth0` and `zt*` — the function takes no configuration
argument, so with an operator-supplied interface `wlan0` the written block
still names `eth0` and contains no `denyinterfaces wlan0` directive. -/
theorem C2_hardcoded_directives :
    (∀ content : String,
      dhcpcdTransform content = content ∨ dhcpcdTransform content = content ++ ztBlock)
  ∧ strContains ztBlock "denyinterfaces eth0" = true
  ∧ strContains ztBlock "denyinterfaces zt*" = true
  ∧ strContains (dhcpcdTransform "") "denyinterfaces wlan0" = false := by
  refine ⟨?_, by decide, by decide, by decide⟩
  intro content
  by_cases h : dhcpcdConfigured content = true
  · exact Or.inl (by simp [dhcpcdTransform, h])
  · exact Or.inr (by simp [dhcpcdTransform, h])

/-- Claim C3, counterexample: when `/etc/dhcpcd.conf` exists,
`configure_dhcpcd` never probes NetworkManager — with the service active and
an operator who would refuse, no prompt is shown, no exit happens, and the
file is written anyway. -/
theorem C3_counterexample :
    configure_dhcpcd_run true "" true "no"
      = { exit1 := false, promptedNM := false,
          finalContent := some ("" ++ ztBlock), wrote := true } := by
  decide

/-- Claim C3 (amended): the NetworkManager check happens only on the path
where the exclusion file is absent; there, if the service is active, refusal
at the prompt terminates the run (exit 1) before anything is written, while
on the file-exists path no prompt or exit ever occurs. -/
theorem C3_nm_check_only_when_absent (content : String) (nmActive : Bool) (resp : String) :
    (nmActive = true → yesResponse resp = false →
      configure_dhcpcd_run false content nmActive resp
        = { exit1 := true, promptedNM := true, finalContent := none, wrote := false })
  ∧ (configure_dhcpcd_run true content nmActive resp).promptedNM = false
  ∧ (configure_dhcpcd_run true content nmActive resp).exit1 = false := by
  refine ⟨?_, by simp [configure_dhcpcd_run], by simp [configure_dhcpcd_run]⟩
  intro hnm hresp
  simp [configure_dhcpcd_run, hnm, hresp]

/-- Witness for C3 (amended): absent file, active NetworkManager, operator
answers "no" — the run exits with status 1 having written nothing. -/
theorem C3_witness :
    configure_dhcpcd_run false "" true "no"
      = { exit1 := true, promptedNM := true, finalContent := none, wrote := false } :=
  (C3_nm_check_only_when_absent "" true "no").1 rfl (by decide)

/-- Helper: when every URL before `u` fails and `u` succeeds, the scan stops
exactly at `u`. -/
theorem firstSuccess_eq_of_split (env : PkgEnv) (l1 : List String) (u : String)
    (l2 : List String) (hfail : ∀ v ∈ l1, download_package_direct env v = false)
    (hu : download_package_direct env u = true) :
    firstSuccess env (l1 ++ u :: l2) = some u
  ∧ attempted env (l1 ++ u :: l2) = l1 ++ [u] := by
  induction l1 with
  | nil => simp [firstSuccess, attempted, hu]
  | cons x xs ih =>
    have hx : download_package_direct env x = false := hfail x (List.mem_cons_self x xs)
    have hxs : ∀ v ∈ xs, download_package_direct env v = false :=
      fun v hv => hfail v (List.mem_cons_of_mem x hv)
    obtain ⟨h1, h2⟩ := ih hxs
    simp [firstSuccess, attempted, hx, h1, h2]

/-- Helper: the attempted URLs form a prefix of the candidate list. -/
theorem attempted_isPrefix (env : PkgEnv) (l : List String) :
    attempted env l <+: l := by
  induction l with
  | nil => simp [attempted]
  | cons u rest ih =>
    by_cases h : download_package_direct env u = true
    · exact ⟨rest, by simp [attempted, h]⟩
    · have hf : download_package_direct env u = false := by simpa using h
      obtain ⟨t, ht⟩ := ih
      exact ⟨t, by simp [attempted, hf, ht]⟩

/-- Helper: every attempted URL either failed its download or is the first
success, at which the scan stops. -/
theorem attempted_mem_spec (env : PkgEnv) (l : List String) :
    ∀ u ∈ attempted env l,
      download_package_direct env u = false ∨ firstSuccess env l = some u := by
  induction l with
  | nil => intro u hu; simp [attempted] at hu
  | cons x rest ih =>
    intro u hu
    by_cases hx : download_package_direct env x = true
    · simp [attempted, hx] at hu
      subst hu
      exact Or.inr (by simp [firstSuccess, hx])
    · have hxf : download_package_direct env x = false := by simpa using hx
      simp [attempted, hxf] at hu
      rcases hu with hu | hu
      · subst hu
        exact Or.inl hxf
      · rcases ih u hu with h | h
        · exact Or.inl h
        · exact Or.inr (by simp [firstSuccess, hxf, h])

/-- Claim C4: after an apt-get failure the download tiers are tried in the
order known URL, mirrors, snapshot; the scan is a prefix of that candidate
order, every tried URL before the stopping point failed, the scan stops at
the first success, and a downloaded file of at most 1000 bytes counts as a
failed download (so the next candidate or tier is tried). -/
theorem C4_fallback_order (env : PkgEnv) (pkg arch : String) :
    candidates env pkg arch
      = knownUrls pkg arch ++ mirrorUrls env pkg ++ snapshotUrls pkg arch
  ∧ attempted env (candidates env pkg arch) <+: candidates env pkg arch
  ∧ (∀ u ∈ attempted env (candidates env pkg arch),
      download_package_direct env u = false
      ∨ firstSuccess env (candidates env pkg arch) = some u)
  ∧ (∀ l1 u l2, candidates env pkg arch = l1 ++ u :: l2 →
      (∀ v ∈ l1, download_package_direct env v = false) →
      download_package_direct env u = true →
      firstSuccess env (candidates env pkg arch) = some u
        ∧ attempted env (candidates env pkg arch) = l1 ++ [u])
  ∧ (∀ u sz, env.wget u = some sz → sz ≤ 1000 → download_package_direct env u = false)
  ∧ (env.installed pkg = false → env.aptGetOk pkg = false →
      (installPackageStep env arch pkg).2 = attempted env (candidates env pkg arch))
  ∧ (env.installed pkg = false → env.aptGetOk pkg = true →
      (installPackageStep env arch pkg).2 = []) := by
  refine ⟨rfl, attempted_isPrefix env _, attempted_mem_spec env _, ?_, ?_, ?_, ?_⟩
  · intro l1 u l2 hsplit hfail hu
    rw [hsplit]
    exact firstSuccess_eq_of_split env l1 u l2 hfail hu
  · intro u sz hw hsz
    simp only [download_package_direct, hw]
    simp
    omega
  · intro hinst hapt
    simp only [installPackageStep, hinst, hapt]
    simp only [Bool.false_eq_true, if_false]
    cases hdl : download_deb_package_improved env pkg arch with
    | none => rfl
    | some debFile =>
      by_cases hio : install_deb_ok env debFile = true
      · simp [hio]
      · simp [hio]
  · intro hinst hapt
    simp [installPackageStep, hinst, hapt]

/-- Witness for C4: in `envEx` the known ifupdown URL downloads only 500
bytes, so it is rejected and the mirror tier's first URL is the first
success. -/
theorem C4_witness :
    download_package_direct envEx
      "http://ftp.debian.org/debian/pool/main/i/ifupdown/ifupdown_0.8.41_armhf.deb" = false
  ∧ firstSuccess envEx (candidates envEx "ifupdown" "armhf")
      = some "http://ftp.debian.org/debian/pool/main/i/ifupdown/ifupdown_0.8.41a_armhf.deb" := by
  constructor
  · exact (C4_fallback_order envEx "ifupdown" "armhf").2.2.2.2.1
      "http://ftp.debian.org/debian/pool/main/i/ifupdown/ifupdown_0.8.41_armhf.deb"
      500 (by decide) (by omega)
  · exact ((C4_fallback_order envEx "ifupdown" "armhf").2.2.2.1
      ["http://ftp.debian.org/debian/pool/main/i/ifupdown/ifupdown_0.8.41_armhf.deb"]
      "http://ftp.debian.org/debian/pool/main/i/ifupdown/ifupdown_0.8.41a_armhf.deb"
      ["http://deb.debian.org/debian/pool/main/i/ifupdown/ifupdown_0.8.41a_armhf.deb",
       "http://ftp.ch.debian.org/debian/pool/main/i/ifupdown/ifupdown_0.8.41a_armhf.deb",
       "http://ftp.de.debian.org/debian/pool/main/i/ifupdown/ifupdown_0.8.41a_armhf.deb",
       "http://snapshot.debian.org/archive/debian/20231201T084046Z/pool/main/i/ifupdown/ifupdown_0.8.41_armhf.deb"]
      (by decide) (by decide) (by decide)).1

/-- Claim C5: with ZeroTier available, package failures only populate the
summary — no exit, and the continue/abort prompt appears exactly when the
critical package `ifupdown` is among the failures (refusal is then fatal);
with ZeroTier absent and its installer failing, the run exits with status 1. -/
theorem C5_failure_policy (env : PkgEnv) (arch : String) :
    ((env.ztPresent || env.ztInstallOk) = true →
      (failedList env arch).contains "ifupdown" = false →
      (install_packages env arch).exit1 = false
        ∧ (install_packages env arch).promptedCritical = false)
  ∧ ((env.ztPresent || env.ztInstallOk) = true →
      (failedList env arch).contains "ifupdown" = true →
      (install_packages env arch).promptedCritical = true
        ∧ ((install_packages env arch).exit1 = false ↔ yesResponse env.criticalResp = true))
  ∧ ((env.ztPresent || env.ztInstallOk) = false →
      (install_packages env arch).exit1 = true)
  ∧ (install_packages env arch).failed = failedList env arch := by
  refine ⟨?_, ?_, ?_, ?_⟩
  · intro hzt hcrit
    simp at hcrit
    simp [install_packages, hzt, hcrit]
  · intro hzt hcrit
    simp at hcrit
    by_cases hyes : yesResponse env.criticalResp = true
    · simp [install_packages, hzt, hcrit, hyes]
    · have hno : yesResponse env.criticalResp = false := by simpa using hyes
      simp [install_packages, hzt, hcrit, hno]
  · intro hzt
    simp [install_packages, hzt]
  · by_cases hzt : (env.ztPresent || env.ztInstallOk) = true
    · by_cases hcrit : "ifupdown" ∈ failedList env arch
      · by_cases hyes : yesResponse env.criticalResp = true
        · simp [install_packages, hzt, hcrit, hyes]
        · simp [install_packages, hzt, hcrit, hyes]
      · simp [install_packages, hzt, hcrit]
    · have hzf : (env.ztPresent || env.ztInstallOk) = false := by simpa using hzt
      simp [install_packages, hzf]

/-- Witness for C5: in `envEx2` bridge-utils fails every tier while ifupdown
installs via apt-get — the run does not exit and no prompt is shown, yet the
failure is recorded in the summary. -/
theorem C5_witness :
    (install_packages envEx2 "armhf").exit1 = false
  ∧ (install_packages envEx2 "armhf").promptedCritical = false
  ∧ (install_packages envEx2 "armhf").failed = ["bridge-utils"] := by
  have h := (C5_failure_policy envEx2 "armhf").1 (by decide) (by decide)
  exact ⟨h.1, h.2, by decide⟩

/-- Claim C6, counterexample: a 16-character non-hexadecimal entry is stored
verbatim — only the length is checked, so "hexadecimal" is not guaranteed. -/
theorem C6_counterexample :
    get_zerotier_network "gggggggggggggggg" = some "gggggggggggggggg"
  ∧ isHex16 "gggggggggggggggg" = false :=
  ⟨by decide, by decide⟩

/-- Claim C6 (amended): the stored identifier is either absent or exactly the
stripped operator input of length 16; hexadecimality is not validated. -/
theorem C6_length_only (raw : String) :
    get_zerotier_network raw = none
  ∨ (get_zerotier_network raw = some (pythonStrip raw) ∧ (pythonStrip raw).length = 16) := by
  by_cases h : (pythonStrip raw).length = 16
  · exact Or.inr ⟨by simp [get_zerotier_network, h], h⟩
  · exact Or.inl (by simp [get_zerotier_network, h])

/-- Claim C7: any stripped input whose length differs from 16 (in particular
the empty input) is stored as absent, and then the join stage and its
dependents (managed routes, cron job) are all skipped. -/
theorem C7_skip_when_not_16 (raw : String) (joinFinds : Option String)
    (h : (pythonStrip raw).length ≠ 16) :
    get_zerotier_network raw = none
  ∧ mainOptStages (get_zerotier_network raw) joinFinds
      = { joinRun := false, managedRun := false, cronRun := false } := by
  have hz : get_zerotier_network raw = none := by simp [get_zerotier_network, h]
  exact ⟨hz, by simp [hz, mainOptStages]⟩

/-- Witness for C7: on empty input nothing optional runs, even though an
interface would be discoverable. -/
theorem C7_witness :
    get_zerotier_network "" = none
  ∧ mainOptStages (get_zerotier_network "") (some "zt0")
      = { joinRun := false, managedRun := false, cronRun := false } :=
  C7_skip_when_not_16 "" (some "zt0") (by decide)

/-- Claim C8, counterexample: on a crontab that already holds the command
twice, insertion changes nothing, so the table does not end up with "exactly
one occurrence" as the universally quantified claim demands. -/
theorem C8_counterexample :
    addCron "zt0" badCron = badCron
  ∧ strCount (addCron "zt0" badCron) (cron_command "zt0") = 2 :=
  ⟨by decide, by decide⟩

/-- Claim C8 (amended): insertion when the command is already present changes
nothing; inserting twice equals inserting once; and from a table with no
occurrence, one insertion yields exactly one occurrence (for any interface
name free of newlines). -/
theorem C8_insert_idempotent (zt current : String) :
    (strContains current (cron_command zt) = true → addCron zt current = current)
  ∧ addCron zt (addCron zt current) = addCron zt current
  ∧ ('\n' ∉ zt.data → strCount current (cron_command zt) = 0 →
      strCount (addCron zt current) (cron_command zt) = 1) := by
  have hcmddata : (cron_command zt).data
      = "@reboot sleep 45 && /usr/sbin/brctl addif br0 ".data
        ++ zt.data ++ " >> /tmp/bridge-setup.log 2>&1".data := by
    simp [cron_command, String.data_append]
  have hdata : ∀ s : String, (s ++ "\n" ++ cron_command zt ++ "\n").data
      = s.data ++ ('\n' :: ((cron_command zt).data ++ ['\n'])) := by
    intro s
    simp [String.data_append]
  refine ⟨?_, ?_, ?_⟩
  · intro h
    simp [addCron, h]
  · by_cases h : strContains current (cron_command zt) = true
    · simp [addCron, h]
    · have hf : strContains current (cron_command zt) = false := by simpa using h
      have hb : containsSub (cron_command zt).data
          ('\n' :: ((cron_command zt).data ++ ['\n'])) = true := by
        show ((cron_command zt).data.isPrefixOf
            ('\n' :: ((cron_command zt).data ++ ['\n']))
          || containsSub (cron_command zt).data ((cron_command zt).data ++ ['\n'])) = true
        rw [containsSub_self_append]
        simp
      have hc2 : strContains (current ++ "\n" ++ cron_command zt ++ "\n")
          (cron_command zt) = true := by
        unfold strContains
        rw [hdata current]
        exact containsSub_append_right hb current.data
      simp [addCron, hf, hc2]
  · intro hzt h0
    have hnlcmd : '\n' ∉ (cron_command zt).data := by
      intro hmem
      rw [hcmddata] at hmem
      rcases List.mem_append.mp hmem with hmem1 | hmem2
      · rcases List.mem_append.mp hmem1 with hpre | hztm
        · exact absurd hpre (by decide)
        · exact hzt hztm
      · exact absurd hmem2 (by decide)
    obtain ⟨t, ht⟩ : ∃ t, (cron_command zt).data = '@' :: t := by
      refine ⟨"reboot sleep 45 && /usr/sbin/brctl addif br0 ".data
        ++ zt.data ++ " >> /tmp/bridge-setup.log 2>&1".data, ?_⟩
      rw [hcmddata]
      rfl
    have hcf : strContains current (cron_command zt) = false := by
      unfold strContains
      exact containsSub_eq_false_of_countOccs_eq_zero
        (by rw [ht]; exact List.cons_ne_nil _ _) h0
    have hstep : addCron zt current = current ++ "\n" ++ cron_command zt ++ "\n" := by
      simp [addCron, hcf]
    rw [hstep]
    unfold strCount
    rw [hdata current,
      countOccs_append (cron_command zt).data '\n' ((cron_command zt).data ++ ['\n'])
        hnlcmd current.data]
    have hone : countOccs (cron_command zt).data
        ('\n' :: ((cron_command zt).data ++ ['\n'])) = 1 :=
      countOccs_newline_self (cron_command zt).data '@' t ht (by decide) hnlcmd
    rw [hone]
    unfold strCount at h0
    omega

/-- Witness for C8 (amended): inserting into an empty crontab yields exactly
one occurrence of the command. -/
theorem C8_witness :
    strCount (addCron "zt0" "") (cron_command "zt0") = 1 :=
  (C8_insert_idempotent "zt0" "").2.2 (by decide) (by decide)

/-- Claim C9: the interfaces file is regenerated as one whole-body overwrite,
and at the spec's concrete configuration the body declares eth0 in manual
(no-address) mode and br0 static with exactly the given address, netmask,
gateway, DNS line, bridge ports, spanning tree off and zero forwarding
delay. -/
theorem C9_interfaces_body :
    (∀ (cfg : RunConfig) (old : String), write_network_interfaces cfg old = interfaces_config cfg)
  ∧ strContains (interfaces_config exampleConfig) "\nauto eth0\niface eth0 inet manual\n" = true
  ∧ strContains (interfaces_config exampleConfig) "\nauto br0\niface br0 inet static\n" = true
  ∧ strContains (interfaces_config exampleConfig) "\n    address 192.168.1.2\n" = true
  ∧ strContains (interfaces_config exampleConfig) "\n    netmask 255.255.255.0\n" = true
  ∧ strContains (interfaces_config exampleConfig) "\n    gateway 192.168.1.1\n" = true
  ∧ strContains (interfaces_config exampleConfig) "\n    dns-nameservers 8.8.8.8 8.8.4.4\n" = true
  ∧ strContains (interfaces_config exampleConfig) "\n    bridge_ports eth0\n" = true
  ∧ strContains (interfaces_config exampleConfig) "\n    bridge_stp off\n" = true
  ∧ strContains (interfaces_config exampleConfig) "\n    bridge_fd 0\n" = true :=
  ⟨fun _ _ => rfl, by decide, by decide, by decide, by decide, by decide, by decide,
    by decide, by decide, by decide⟩

/-- Claim C10: whenever the target file exists, `backup_file` reports the
timestamp-suffixed backup path even though the `cp` it ran exited non-zero
(`run_command` catches the failure and hands back a result object), and the
subsequent dhcpcd append proceeds unaffected. -/
theorem C10_backup_never_blocks (exec : String → CommandResult)
    (filepath timestamp content : String)
    (_hfail : (run_command exec
      ("cp " ++ filepath ++ " " ++ backup_path filepath timestamp)).returncode ≠ 0) :
    backup_file exec true filepath timestamp = some (backup_path filepath timestamp)
  ∧ (backup_then_append exec filepath timestamp content).2 = dhcpcdTransform content :=
  ⟨rfl, rfl⟩

/-- Witness for C10: an executor whose `cp` exits 1 still yields the backup
path and the same file mutation. -/
theorem C10_witness :
    backup_file failExec true "/etc/dhcpcd.conf" "20251101_120000"
      = some (backup_path "/etc/dhcpcd.conf" "20251101_120000")
  ∧ (backup_then_append failExec "/etc/dhcpcd.conf" "20251101_120000" "").2
      = dhcpcdTransform "" :=
  C10_backup_never_blocks failExec "/etc/dhcpcd.conf" "20251101_120000" "" (by decide)

end ZTBridge
